import Mathlib

/-!
Verification development for the land-cover-change QA/QC matrix engine of
`src/LCC_matrices.py`.  The Python code builds per-period change matrices
from raster attribute tables (`createMatrices`), reduces them to per-class
static totals (`totals_helper`), differences the same period across two
data versions (`difference_matrices`), and color-codes flagged transitions
in the written workbook (`addStyle`).

The embedding below translates the pandas pipeline into executable Lean
definitions over exact rationals: a float NaN (and any non-finite float) is
modelled as `none : Option ℚ`, a finite float value as `some q`.  Labelled
tables keep explicit row/column label lists next to a cell function which
is meaningful on those labels only.
-/

/-- One row of the merged change table of `createMatrices` lines 143-163:
the early class name, the optional late class name (`none` models a NaN
`late` entry, which the `lcc_lookup` merge produces for raster values whose
`class` string has no " to " part, i.e. no-change values), and the raw
`Count` in square meters. -/
structure Obs where
  early : String
  late : Option String
  count : ℚ
deriving DecidableEq

/-- The fixed unit-to-acre conversion constant of line 163
(`df['Count'] / 4046.86`). -/
def acresPerUnit : ℚ := 404686 / 100

/-- Converted acreage of one observation row (line 163). -/
def Obs.acres (o : Obs) : ℚ := o.count / acresPerUnit

/-- Models `DataFrame.round(4)` (line 188) on a single value: rounding to
four decimal places.  The exact tie behavior of binary floats is immaterial
to every statement below; ties are modelled as rounding up. -/
def round4 (x : ℚ) : ℚ := ((⌊x * 10000 + 1 / 2⌋ : ℤ) : ℚ) / 10000

/-- The observation rows contributing to pivot cell `(e, l)`:
`pd.pivot_table` (lines 186-189) groups by the early and the late name
column and drops rows whose late entry is NaN. -/
def obsFor (obs : List Obs) (e l : String) : List Obs :=
  obs.filter (fun o => decide (o.early = e ∧ o.late = some l))

/-- One cell of the pivot table of lines 186-189.  `pd.pivot_table` is
called without an `aggfunc` argument, so it aggregates each group with the
default aggregator, the arithmetic mean, and `.round(4)` is applied to the
result; a pair with no contributing rows is absent (NaN), modelled `none`. -/
def pivotCell (obs : List Obs) (e l : String) : Option ℚ :=
  let xs := obsFor obs e l
  if xs.length = 0 then none
  else some (round4 (((xs.map Obs.acres).sum) / (xs.length : ℚ)))

/-- The class-by-class block of the matrix after the validation loop and
the reindexing of lines 191-204: every registry class gets a row and a
column (missing ones all zero), the diagonal is forced to 0 (line 199), and
remaining NaN cells are zero-filled (line 204).  Meaningful for `e`, `l`
ranging over the class registry. -/
def body (obs : List Obs) (e l : String) : ℚ :=
  if e = l then 0 else (pivotCell obs e l).getD 0

/-- The `Decrease` column of line 207: per-row sum over the class columns. -/
def decrease (obs : List Obs) (classes : List String) (e : String) : ℚ :=
  (classes.map (fun l => body obs e l)).sum

/-- The `Increase` row of line 208: per-column sum over the class rows. -/
def increase (obs : List Obs) (classes : List String) (l : String) : ℚ :=
  (classes.map (fun e => body obs e l)).sum

/-- Line 211: `sum(matrix['Decrease'][0:len(classes)])`, the total changed
area. -/
def totalChange (obs : List Obs) (classes : List String) : ℚ :=
  (classes.map (fun e => decrease obs classes e)).sum

/-- A labelled table as written to one spreadsheet sheet: row labels,
column labels, and a cell function.  `none` models a NaN cell; `cell` is
meaningful only on `rows × cols`. -/
structure FullMatrix where
  rows : List String
  cols : List String
  cell : String → String → Option ℚ

/-- The finished change matrix of lines 186-214, for a class registry
without duplicates that avoids the three margin labels.  Lines 207-211 in
order: the `Decrease` column is appended (207); the `Increase` row is
appended by label alignment, leaving its `Decrease` entry NaN (208); the
`Decrease` row is appended positionally from the `Decrease` column, its
last entry (the `Decrease` column value of the `Increase` row) still NaN
(209); the `Net Change` row is `Increase` minus `Decrease` per column, NaN
in the `Decrease` column (210); finally the (`Increase`, `Decrease`) cell
is overwritten with the total change (211). -/
def buildMatrix (obs : List Obs) (classes : List String) : FullMatrix :=
  ⟨classes ++ ["Increase", "Decrease", "Net Change"],
   classes ++ ["Decrease"],
   fun r c =>
    if r = "Increase" then
      if c = "Decrease" then some (totalChange obs classes)
      else some (increase obs classes c)
    else if r = "Decrease" then
      if c = "Decrease" then none else some (decrease obs classes c)
    else if r = "Net Change" then
      if c = "Decrease" then none
      else some (increase obs classes c - decrease obs classes c)
    else
      if c = "Decrease" then some (decrease obs classes r)
      else some (body obs r c)⟩

/-- Lines 171-176: `df.replace({year: lc_abbrev})` applied to both name
columns.  pandas `replace` substitutes values found as keys of the mapping
and leaves every other value unchanged; it never fails on a missing key. -/
def applyAbbrev (ab : List (String × String)) (o : Obs) : Obs :=
  ⟨(List.lookup o.early ab).getD o.early,
   o.late.map (fun l => (List.lookup l ab).getD l),
   o.count⟩

/-- Line 273 of `totals_helper`:
`df.loc[df[late].isna(), late] = df[early]` — a row with no late-side class
inherits its early class. -/
def lateFilled (o : Obs) : String := o.late.getD o.early

/-- The early-date static total (lines 276-286): group the rows by the
early name and sum the acreages; a class heading no row totals 0 (the
`fillna(0.0)` of line 306). -/
def earlyTotal (obs : List Obs) (c : String) : ℚ :=
  ((obs.filter (fun o => decide (o.early = c))).map Obs.acres).sum

/-- The late-date static total (lines 289-299), computed after the
no-change fill of line 273; a class heading no row totals 0. -/
def lateTotal (obs : List Obs) (c : String) : ℚ :=
  ((obs.filter (fun o => decide (lateFilled o = c))).map Obs.acres).sum

/-- Insertion into a lexicographically sorted list of strings. -/
def insertSorted (s : String) : List String → List String
  | [] => [s]
  | t :: ts => if s < t then s :: t :: ts else t :: insertSorted s ts

/-- Lexicographic string sort, modelling the sorted group keys that pandas
`groupby` produces. -/
def sortStr (l : List String) : List String := l.foldr insertSorted []

/-- Key order of `pd.merge(..., how='outer')` on `LandCover`: the left keys
in order, then the unmatched right keys. -/
def outerKeys (a b : List String) : List String :=
  a ++ b.filter (fun x => decide (x ∉ a))

/-- A per-period totals table: the merged `LandCover` keys and the two
year columns.  The column functions return 0 for a class with no rows on
that side, which is exactly the `fillna(0.0)` of line 306. -/
structure TotalsTable where
  keys : List String
  earlyLabel : String
  lateLabel : String
  earlyCol : String → ℚ
  lateCol : String → ℚ

/-- The column label of lines 283 and 296:
`{year}_{early[2:]}{late[2:]}_{version}`. -/
def totalsLabel (year early late version : String) : String :=
  year ++ "_" ++ early.drop 2 ++ late.drop 2 ++ "_" ++ version

/-- `totals_helper` (lines 246-309): static early/late totals of one change
period, outer-merged on `LandCover` with gaps zero-filled. -/
def totals_helper (obs : List Obs) (early late version : String) : TotalsTable :=
  ⟨outerKeys (sortStr ((obs.map (fun o => o.early)).dedup))
             (sortStr ((obs.map lateFilled).dedup)),
   totalsLabel early early late version,
   totalsLabel late early late version,
   earlyTotal obs,
   lateTotal obs⟩

/-- The cross-period merged totals accumulated by lines 232-241: the merged
key list and one labelled column per (year, period, version). -/
structure MergedTotals where
  keys : List String
  cols : List (String × (String → ℚ))

/-- A period totals table viewed as merged-totals columns. -/
def toMerged (t : TotalsTable) : MergedTotals :=
  ⟨t.keys, [(t.earlyLabel, t.earlyCol), (t.lateLabel, t.lateCol)]⟩

/-- One step of the accumulation loop of lines 232-241: the first table is
copied, later ones are outer-merged on `LandCover` with `fillna(0.0)` (the
column functions already return 0 off their own key set). -/
def mergeStep (acc : Option MergedTotals) (t : TotalsTable) : Option MergedTotals :=
  match acc with
  | none => some (toMerged t)
  | some m => some ⟨outerKeys m.keys t.keys, m.cols ++ (toMerged t).cols⟩

/-- The `total_df` accumulation of lines 231-241, starting from `None`. -/
def mergeTotals (ts : List TotalsTable) : Option MergedTotals :=
  ts.foldl mergeStep none

/-- Label-aligned float subtraction, one cell of `df1 - df2` (line 396):
NaN propagates. -/
def fsub : Option ℚ → Option ℚ → Option ℚ
  | some a, some b => some (a - b)
  | _, _ => none

/-- Float division by the scalar `tot_change` (line 399).  Dividing by 0
yields ±inf or NaN in floats; every non-finite outcome is `none`. -/
def fdiv (x : Option ℚ) (t : Option ℚ) : Option ℚ :=
  match x, t with
  | some a, some b => if b = 0 then none else some (a / b)
  | _, _ => none

/-- pandas label alignment for `df1 - df2`: identical indexes are kept,
otherwise the sorted union is used. -/
def alignUnion (a b : List String) : List String :=
  if a = b then a else sortStr ((a ++ b).dedup)

/-- The aligned difference table `df1 - df2` of line 396: a cell carried by
both tables is subtracted, every other cell of the aligned result is NaN. -/
def diffTable (A B : FullMatrix) : FullMatrix :=
  ⟨alignUnion A.rows B.rows,
   alignUnion A.cols B.cols,
   fun r c =>
    if r ∈ A.rows ∧ c ∈ A.cols ∧ r ∈ B.rows ∧ c ∈ B.cols then
      fsub (A.cell r c) (B.cell r c)
    else none⟩

/-- `difference_matrices` (lines 357-410) on the two already-read sheet
tables.  The only raise in the function is the version-count check of
lines 377-378; `tot_change` is read from the first (newer) table's
(`Increase`, `Decrease`) cell (line 393); the subtraction (line 396) and
the scalar division (line 399) are plain pandas float operations performed
with no further validation. -/
def difference_matrices (versions : List String) (A B : FullMatrix) :
    Except String FullMatrix :=
  if versions.length ≠ 2 then
    .error "Expected 2 versions to compare."
  else
    let tot := A.cell "Increase" "Decrease"
    let D := diffTable A B
    .ok ⟨D.rows, D.cols, fun r c => fdiv (D.cell r c) tot⟩

/-- One entry of the `colors` dictionary handed to `addStyle`: the fill
color and the list of flagged (early, late) transitions. -/
structure Tier where
  hex : String
  transitions : List (String × String)
deriving DecidableEq

/-- The final fill of the matrix cell of class pair `pair` holding value
`v` after `addStyle`'s matrix branch (lines 40-56): the tiers are visited
in the `colors` dictionary's iteration order, and each visit overwrites the
cell's fill whenever the pair is listed in the tier and the cell value is
strictly positive.  `none` is an unstyled (Normal) cell.  The sheet
position arithmetic of line 48 (`classes.index(...) + 2`) maps positions
back to exactly the class pair of the cell, because the sheet is written
with one header row and one index column ahead of the class block. -/
def finalFill (colors : List Tier) (pair : String × String) (v : ℚ) : Option String :=
  colors.foldl (fun acc t => if pair ∈ t.transitions ∧ 0 < v then some t.hex else acc) none

/-- The last tier of the rule table listing `pair`, in iteration order. -/
def lastMatch (colors : List Tier) (pair : String × String) : Option Tier :=
  (colors.filter (fun t => decide (pair ∈ t.transitions))).getLast?

/-- What one `createMatrices` call produces: the per-period matrices, the
sheet names written (lines 216-226), whether `addStyle` ran (line 229), and
the merged totals returned (lines 231-244). -/
structure RunResult where
  matrices : List FullMatrix
  sheets : List String
  styled : Bool
  totals : Option MergedTotals

/-- The sheet name of line 224: `{years[i]}-{years[i+1]}-{version}`. -/
def sheetName (y1 y2 : Nat) (version : String) : String :=
  toString y1 ++ "-" ++ toString y2 ++ "-" ++ version

/-- `createMatrices` (lines 94-244).  `obsOf i` abstracts the attribute
table read for period `i` (lines 137-160, assumed present; a missing file
raises before any table work).  The per-period loop runs over
`range(len(years) - 1)`; totals are computed from the unabbreviated names
(line 166), the abbreviation substitution is applied before the pivot
(lines 171-177), and the effective class list is the abbreviation table's
value list when one is supplied, otherwise the lookup's unique early
names (lines 177-180).  Sheets are written and styled only when at least
one matrix was built (lines 216-229); the totals accumulator starts as
`None` and is returned as-is (lines 231-244). -/
def createMatrices (years : List Nat) (obsOf : Nat → List Obs) (version : String)
    (lcAbbrev : Option (List (String × String))) (lookupClasses : List String) :
    RunResult :=
  let n := years.length - 1
  let classes := match lcAbbrev with
    | some ab => ab.map Prod.snd
    | none => lookupClasses
  let periods := List.range n
  let ms := periods.map (fun i =>
    let obs := obsOf i
    let obs2 := match lcAbbrev with
      | some ab => obs.map (applyAbbrev ab)
      | none => obs
    buildMatrix obs2 classes)
  let ts := periods.map (fun i =>
    totals_helper (obsOf i) (toString (years.getD i 0))
      (toString (years.getD (i + 1) 0)) version)
  let sheets := if 0 < ms.length then
      periods.map (fun i => sheetName (years.getD i 0) (years.getD (i + 1) 0) version)
    else []
  ⟨ms, sheets, decide (0 < ms.length), mergeTotals ts⟩

/-! ## Helper lemmas -/

theorem sum_map_add {α : Type} (l : List α) (f g : α → ℚ) :
    (l.map (fun x => f x + g x)).sum = (l.map f).sum + (l.map g).sum := by
  induction l with
  | nil => simp
  | cons a t ih => simp [ih]; ring

theorem sum_swap {α β : Type} (L1 : List α) (L2 : List β) (f : α → β → ℚ) :
    (L1.map (fun e => (L2.map (fun l => f e l)).sum)).sum
      = (L2.map (fun l => (L1.map (fun e => f e l)).sum)).sum := by
  induction L1 with
  | nil => simp
  | cons a t ih =>
    simp only [List.map_cons, List.sum_cons, ih, ← sum_map_add]

theorem cell_class (obs : List Obs) (classes : List String) (r c : String)
    (hr : r ∈ classes) (hc : c ∈ classes)
    (hI : "Increase" ∉ classes) (hD : "Decrease" ∉ classes)
    (hN : "Net Change" ∉ classes) :
    (buildMatrix obs classes).cell r c = some (body obs r c) := by
  have h1 : r ≠ "Increase" := fun h => hI (h ▸ hr)
  have h2 : r ≠ "Decrease" := fun h => hD (h ▸ hr)
  have h3 : r ≠ "Net Change" := fun h => hN (h ▸ hr)
  have h4 : c ≠ "Decrease" := fun h => hD (h ▸ hc)
  simp [buildMatrix, h1, h2, h3, h4]

theorem cell_decCol (obs : List Obs) (classes : List String) (r : String)
    (hr : r ∈ classes)
    (hI : "Increase" ∉ classes) (hD : "Decrease" ∉ classes)
    (hN : "Net Change" ∉ classes) :
    (buildMatrix obs classes).cell r "Decrease" = some (decrease obs classes r) := by
  have h1 : r ≠ "Increase" := fun h => hI (h ▸ hr)
  have h2 : r ≠ "Decrease" := fun h => hD (h ▸ hr)
  have h3 : r ≠ "Net Change" := fun h => hN (h ▸ hr)
  simp [buildMatrix, h1, h2, h3]

theorem cell_incRow (obs : List Obs) (classes : List String) (c : String)
    (hc : c ∈ classes) (hD : "Decrease" ∉ classes) :
    (buildMatrix obs classes).cell "Increase" c = some (increase obs classes c) := by
  have h4 : c ≠ "Decrease" := fun h => hD (h ▸ hc)
  simp [buildMatrix, h4]

theorem cell_decRow (obs : List Obs) (classes : List String) (c : String)
    (hc : c ∈ classes) (hD : "Decrease" ∉ classes) :
    (buildMatrix obs classes).cell "Decrease" c = some (decrease obs classes c) := by
  have h4 : c ≠ "Decrease" := fun h => hD (h ▸ hc)
  simp [buildMatrix, h4]

theorem cell_netRow (obs : List Obs) (classes : List String) (c : String)
    (hc : c ∈ classes) (hD : "Decrease" ∉ classes) :
    (buildMatrix obs classes).cell "Net Change" c
      = some (increase obs classes c - decrease obs classes c) := by
  have h4 : c ≠ "Decrease" := fun h => hD (h ▸ hc)
  simp [buildMatrix, h4]

theorem cell_totCorner (obs : List Obs) (classes : List String) :
    (buildMatrix obs classes).cell "Increase" "Decrease"
      = some (totalChange obs classes) := by
  simp [buildMatrix]

theorem decrease_eq_sumInc (obs : List Obs) (classes : List String) :
    totalChange obs classes = (classes.map (fun l => increase obs classes l)).sum := by
  unfold totalChange decrease increase
  exact sum_swap classes classes (fun e l => body obs e l)

/-! ## C2 -/

/-- C2: for every class registry (distinct names avoiding the margin
labels) and every observation set, the built change matrix has every
diagonal cell exactly 0, the sum of the `Decrease` column over the class
set equals the sum of the `Increase` row over the class set (hence agrees
within tolerance 1e-6), and the cell at the `Increase` row / `Decrease`
column intersection is exactly that common sum, the total change. -/
theorem C2_matrix_invariants (obs : List Obs) (classes : List String)
    (hI : "Increase" ∉ classes) (hD : "Decrease" ∉ classes)
    (hN : "Net Change" ∉ classes) :
    (∀ c ∈ classes, (buildMatrix obs classes).cell c c = some 0) ∧
    (∀ c ∈ classes,
      (buildMatrix obs classes).cell c "Decrease" = some (decrease obs classes c)) ∧
    (∀ c ∈ classes,
      (buildMatrix obs classes).cell "Increase" c = some (increase obs classes c)) ∧
    (classes.map (fun c => decrease obs classes c)).sum
      = (classes.map (fun c => increase obs classes c)).sum ∧
    |(classes.map (fun c => decrease obs classes c)).sum
      - (classes.map (fun c => increase obs classes c)).sum| ≤ 1 / 1000000 ∧
    (buildMatrix obs classes).cell "Increase" "Decrease"
      = some ((classes.map (fun c => decrease obs classes c)).sum) := by
  have hsum : (classes.map (fun c => decrease obs classes c)).sum
      = (classes.map (fun c => increase obs classes c)).sum := by
    have := decrease_eq_sumInc obs classes
    unfold totalChange at this
    exact this
  refine ⟨?_, ?_, ?_, hsum, ?_, ?_⟩
  · intro c hc
    rw [cell_class obs classes c c hc hc hI hD hN]
    simp [body]
  · intro c hc
    exact cell_decCol obs classes c hc hI hD hN
  · intro c hc
    exact cell_incRow obs classes c hc hD
  · rw [hsum]
    simp
  · rw [cell_totCorner]
    rfl

/-- Witness for C2 at a concrete registry and observation list. -/
theorem C2_matrix_invariants_w :
    ("Increase" ∉ (["WAT", "FOR"] : List String)
      ∧ "Decrease" ∉ (["WAT", "FOR"] : List String)
      ∧ "Net Change" ∉ (["WAT", "FOR"] : List String)) ∧
    ((∀ c ∈ (["WAT", "FOR"] : List String),
      (buildMatrix [⟨"WAT", some "FOR", 5⟩] ["WAT", "FOR"]).cell c c = some 0) ∧
    (∀ c ∈ (["WAT", "FOR"] : List String),
      (buildMatrix [⟨"WAT", some "FOR", 5⟩] ["WAT", "FOR"]).cell c "Decrease"
        = some (decrease [⟨"WAT", some "FOR", 5⟩] ["WAT", "FOR"] c)) ∧
    (∀ c ∈ (["WAT", "FOR"] : List String),
      (buildMatrix [⟨"WAT", some "FOR", 5⟩] ["WAT", "FOR"]).cell "Increase" c
        = some (increase [⟨"WAT", some "FOR", 5⟩] ["WAT", "FOR"] c)) ∧
    ((["WAT", "FOR"] : List String).map
        (fun c => decrease [⟨"WAT", some "FOR", 5⟩] ["WAT", "FOR"] c)).sum
      = ((["WAT", "FOR"] : List String).map
        (fun c => increase [⟨"WAT", some "FOR", 5⟩] ["WAT", "FOR"] c)).sum ∧
    |((["WAT", "FOR"] : List String).map
        (fun c => decrease [⟨"WAT", some "FOR", 5⟩] ["WAT", "FOR"] c)).sum
      - ((["WAT", "FOR"] : List String).map
        (fun c => increase [⟨"WAT", some "FOR", 5⟩] ["WAT", "FOR"] c)).sum| ≤ 1 / 1000000 ∧
    (buildMatrix [⟨"WAT", some "FOR", 5⟩] ["WAT", "FOR"]).cell "Increase" "Decrease"
      = some (((["WAT", "FOR"] : List String).map
        (fun c => decrease [⟨"WAT", some "FOR", 5⟩] ["WAT", "FOR"] c)).sum)) :=
  ⟨⟨by decide, by decide, by decide⟩,
   C2_matrix_invariants [⟨"WAT", some "FOR", 5⟩] ["WAT", "FOR"]
     (by decide) (by decide) (by decide)⟩

/-! ## C10 -/

/-- C10: with fewer than two years, `createMatrices` builds no matrices,
writes no sheets, applies no styling, and returns `None` in place of a
totals table. -/
theorem C10_short_years (years : List Nat) (obsOf : Nat → List Obs)
    (version : String) (lcAbbrev : Option (List (String × String)))
    (lookupClasses : List String) (h : years.length < 2) :
    (createMatrices years obsOf version lcAbbrev lookupClasses).matrices = [] ∧
    (createMatrices years obsOf version lcAbbrev lookupClasses).sheets = [] ∧
    (createMatrices years obsOf version lcAbbrev lookupClasses).styled = false ∧
    (createMatrices years obsOf version lcAbbrev lookupClasses).totals = none := by
  have hn : years.length - 1 = 0 := by omega
  simp [createMatrices, hn, mergeTotals]

/-- Witness for C10 at a single-year list. -/
theorem C10_short_years_w :
    ([2014] : List Nat).length < 2 ∧
    ((createMatrices [2014] (fun _ => []) "2024ed" none []).matrices = [] ∧
     (createMatrices [2014] (fun _ => []) "2024ed" none []).sheets = [] ∧
     (createMatrices [2014] (fun _ => []) "2024ed" none []).styled = false ∧
     (createMatrices [2014] (fun _ => []) "2024ed" none []).totals = none) :=
  ⟨by decide, C10_short_years [2014] (fun _ => []) "2024ed" none [] (by decide)⟩

/-! ## C8 -/

/-- C8: in `totals_helper`, a class all of whose early-side rows have a
missing (NaN) late entry and which no row transitions into inherits its
early total as its late total; and a class absent from one side of the
outer join gets 0.0 in that column, never an undefined entry. -/
theorem C8_totals_inheritance (obs : List Obs) (e l v : String) (c : String)
    (h1 : ∀ o ∈ obs, o.early = c → o.late = none)
    (h2 : ∀ o ∈ obs, o.late ≠ some c) :
    (totals_helper obs e l v).lateCol c = (totals_helper obs e l v).earlyCol c ∧
    (∀ d : String, (∀ o ∈ obs, lateFilled o ≠ d) →
      (totals_helper obs e l v).lateCol d = 0) ∧
    (∀ d : String, (∀ o ∈ obs, o.early ≠ d) →
      (totals_helper obs e l v).earlyCol d = 0) := by
  refine ⟨?_, ?_, ?_⟩
  · show lateTotal obs c = earlyTotal obs c
    unfold lateTotal earlyTotal
    congr 1
    congr 1
    apply List.filter_congr
    intro o ho
    have : lateFilled o = c ↔ o.early = c := by
      constructor
      · intro hf
        cases hl : o.late with
        | none => simpa [lateFilled, hl] using hf
        | some x =>
          exfalso
          apply h2 o ho
          rw [hl]
          simp [lateFilled, hl] at hf
          rw [hf]
      · intro he
        have := h1 o ho he
        simp [lateFilled, this, he]
    simp [this]
  · intro d hd
    show lateTotal obs d = 0
    unfold lateTotal
    have : obs.filter (fun o => decide (lateFilled o = d)) = [] := by
      apply List.filter_eq_nil_iff.mpr
      intro o ho
      simpa using hd o ho
    simp [this]
  · intro d hd
    show earlyTotal obs d = 0
    unfold earlyTotal
    have : obs.filter (fun o => decide (o.early = d)) = [] := by
      apply List.filter_eq_nil_iff.mpr
      intro o ho
      simpa using hd o ho
    simp [this]

/-- Witness for C8 at a concrete observation list: the class WAT has one
100-acre no-change row (missing late side) and nothing transitions into
it, so it contributes its early total to the late total as well. -/
theorem C8_totals_inheritance_w :
    ((∀ o ∈ ([⟨"WAT", none, 404686⟩, ⟨"FOR", some "DEV", 5⟩] : List Obs),
        o.early = "WAT" → o.late = none) ∧
     (∀ o ∈ ([⟨"WAT", none, 404686⟩, ⟨"FOR", some "DEV", 5⟩] : List Obs),
        o.late ≠ some "WAT")) ∧
    ((totals_helper [⟨"WAT", none, 404686⟩, ⟨"FOR", some "DEV", 5⟩]
        "2014" "2018" "2024ed").lateCol "WAT"
      = (totals_helper [⟨"WAT", none, 404686⟩, ⟨"FOR", some "DEV", 5⟩]
        "2014" "2018" "2024ed").earlyCol "WAT" ∧
     (∀ d : String,
       (∀ o ∈ ([⟨"WAT", none, 404686⟩, ⟨"FOR", some "DEV", 5⟩] : List Obs),
          lateFilled o ≠ d) →
       (totals_helper [⟨"WAT", none, 404686⟩, ⟨"FOR", some "DEV", 5⟩]
          "2014" "2018" "2024ed").lateCol d = 0) ∧
     (∀ d : String,
       (∀ o ∈ ([⟨"WAT", none, 404686⟩, ⟨"FOR", some "DEV", 5⟩] : List Obs),
          o.early ≠ d) →
       (totals_helper [⟨"WAT", none, 404686⟩, ⟨"FOR", some "DEV", 5⟩]
          "2014" "2018" "2024ed").earlyCol d = 0)) :=
  ⟨⟨by decide, by decide⟩,
   C8_totals_inheritance [⟨"WAT", none, 404686⟩, ⟨"FOR", some "DEV", 5⟩]
     "2014" "2018" "2024ed" "WAT" (by decide) (by decide)⟩

/-! ## C9 -/

theorem foldl_keep (pair : String × String) (v : ℚ) (hv : ¬ 0 < v) :
    ∀ (colors : List Tier) (acc : Option String),
      colors.foldl
        (fun acc t => if pair ∈ t.transitions ∧ 0 < v then some t.hex else acc) acc = acc
  | [], _ => rfl
  | t :: ts, acc => by
      rw [List.foldl_cons, if_neg (fun h => hv h.2)]
      exact foldl_keep pair v hv ts acc

theorem foldl_fill_pos (pair : String × String) (v : ℚ) (hv : 0 < v) :
    ∀ (colors : List Tier) (acc : Option String),
      colors.foldl
        (fun acc t => if pair ∈ t.transitions ∧ 0 < v then some t.hex else acc) acc
        = match (colors.filter (fun t => decide (pair ∈ t.transitions))).getLast? with
          | some t => some t.hex
          | none => acc
  | [], _ => rfl
  | t :: ts, acc => by
      rw [List.foldl_cons]
      by_cases hp : pair ∈ t.transitions
      · rw [if_pos ⟨hp, hv⟩, foldl_fill_pos pair v hv ts (some t.hex),
          List.filter_cons_of_pos (by simpa using hp)]
        cases hft : (ts.filter (fun x => decide (pair ∈ x.transitions))).getLast? with
        | none =>
          have h0 : ts.filter (fun x => decide (pair ∈ x.transitions)) = [] :=
            List.getLast?_eq_none_iff.mp hft
          simp [h0]
        | some u =>
          rw [List.getLast?_cons]
          simp [hft]
      · rw [if_neg (fun h => hp h.1), foldl_fill_pos pair v hv ts acc,
          List.filter_cons_of_neg (by simpa using hp)]

/-- C9 (amended): a cell of a rule-listed pair is filled if and only if its
value is strictly positive (a zero cell stays Normal); and when a pair is
listed under several tiers, the fill that sticks is that of the LAST listing
tier in the rule table's iteration order, regardless of severity. -/
theorem C9_severity_rules (colors : List Tier) (pair : String × String) (v : ℚ) :
    (finalFill colors pair v = none ↔
      ¬ (0 < v ∧ ∃ t ∈ colors, pair ∈ t.transitions)) ∧
    (0 < v → finalFill colors pair v = (lastMatch colors pair).map Tier.hex) := by
  have hpos : 0 < v → finalFill colors pair v = (lastMatch colors pair).map Tier.hex := by
    intro hv
    unfold finalFill lastMatch
    rw [foldl_fill_pos pair v hv colors none]
    cases hft : (colors.filter (fun t => decide (pair ∈ t.transitions))).getLast? <;> simp
  refine ⟨?_, hpos⟩
  by_cases hv : 0 < v
  · rw [hpos hv]
    simp only [hv, true_and]
    constructor
    · intro hnone
      have hlm : lastMatch colors pair = none := by
        cases h : lastMatch colors pair with
        | none => rfl
        | some t => rw [h] at hnone; simp at hnone
      unfold lastMatch at hlm
      have hfil := List.getLast?_eq_none_iff.mp hlm
      intro ⟨t, ht, hpt⟩
      have : t ∈ colors.filter (fun t => decide (pair ∈ t.transitions)) :=
        List.mem_filter.mpr ⟨ht, by simpa using hpt⟩
      rw [hfil] at this
      simp at this
    · intro hno
      have hfil : colors.filter (fun t => decide (pair ∈ t.transitions)) = [] := by
        apply List.filter_eq_nil_iff.mpr
        intro t ht
        simp only [decide_eq_true_eq]
        exact fun hpt => hno ⟨t, ht, hpt⟩
      unfold lastMatch
      rw [hfil]
      rfl
  · constructor
    · intro _
      exact fun h => hv h.1
    · intro _
      exact foldl_keep pair v hv colors none

/-- Witness instance of C9 at a concrete rule table, pair and value. -/
theorem C9_severity_rules_w :
    (finalFill [⟨"C00000", [("WAT", "DEV")]⟩] ("WAT", "DEV") 7 = none ↔
      ¬ ((0 : ℚ) < 7 ∧ ∃ t ∈ [(⟨"C00000", [("WAT", "DEV")]⟩ : Tier)],
          ("WAT", "DEV") ∈ t.transitions)) ∧
    ((0 : ℚ) < 7 → finalFill [⟨"C00000", [("WAT", "DEV")]⟩] ("WAT", "DEV") 7
      = (lastMatch [⟨"C00000", [("WAT", "DEV")]⟩] ("WAT", "DEV")).map Tier.hex) :=
  C9_severity_rules [⟨"C00000", [("WAT", "DEV")]⟩] ("WAT", "DEV") 7

/-- The two-tier rule table of the C9 counterexample, iterated in the
spec's own priority order: the higher-severity (Invalid, red) tier first,
the lower-severity (NeedsReview, yellow) tier second, both listing the same
transition pair. -/
def colorsEx : List Tier := [⟨"FF0000", [("BAR", "FOR")]⟩, ⟨"FFFF00", [("BAR", "FOR")]⟩]

/-- C9 counterexample: a strictly positive cell whose pair is listed under
both tiers of `colorsEx` ends up with the fill of the LAST tier (yellow,
lower severity), not with the higher-priority tier's tag. -/
theorem C9_counterexample :
    finalFill colorsEx ("BAR", "FOR") 5 = some "FFFF00" ∧
    ("FFFF00" : String) ≠ "FF0000" := by
  constructor
  · norm_num [finalFill, colorsEx]
  · decide

/-! ## C1 -/

/-- C1 (amended): a matrix cell of an observed off-diagonal class pair is
the rounded arithmetic MEAN of the pair's converted acreages — the default
aggregator of `pd.pivot_table` — which coincides with the (rounded) sum
exactly when the pair occurs in a single observation row. -/
theorem C1_cell_is_mean (obs : List Obs) (classes : List String) (e l : String)
    (he : e ∈ classes) (hl : l ∈ classes) (hel : e ≠ l)
    (hI : "Increase" ∉ classes) (hD : "Decrease" ∉ classes)
    (hN : "Net Change" ∉ classes) (hne : obsFor obs e l ≠ []) :
    (buildMatrix obs classes).cell e l
      = some (round4 (((obsFor obs e l).map Obs.acres).sum
          / ((obsFor obs e l).length : ℚ))) ∧
    ∀ o : Obs, obsFor obs e l = [o] →
      (buildMatrix obs classes).cell e l = some (round4 o.acres) := by
  have hcell := cell_class obs classes e l he hl hI hD hN
  have hlen : (obsFor obs e l).length ≠ 0 :=
    fun h => hne (List.length_eq_zero.mp h)
  constructor
  · rw [hcell]
    unfold body
    rw [if_neg hel]
    simp [pivotCell, hlen]
  · intro o ho
    rw [hcell]
    unfold body
    rw [if_neg hel]
    simp [pivotCell, ho]

/-- Two observation rows carrying the same (FOR, DEV) transition pair, with
converted acreages 200 and 400. -/
def c1obs : List Obs :=
  [⟨"FOR", some "DEV", 809372⟩, ⟨"FOR", some "DEV", 1618744⟩]

/-- C1 counterexample: the two (FOR, DEV) rows of `c1obs` have converted
acreages summing to 600, yet the matrix cell holds 300 — the arithmetic
mean produced by `pd.pivot_table`'s default aggregator — so a repeated
pair's cell is NOT the sum of its converted acreages. -/
theorem C1_counterexample :
    (c1obs.map Obs.acres).sum = 600 ∧
    (buildMatrix c1obs ["FOR", "DEV"]).cell "FOR" "DEV" = some 300 ∧
    (300 : ℚ) ≠ 600 := by
  refine ⟨?_, ?_, by norm_num⟩
  · norm_num [c1obs, Obs.acres, acresPerUnit]
  · rw [cell_class c1obs ["FOR", "DEV"] "FOR" "DEV" (by decide) (by decide)
      (by decide) (by decide) (by decide)]
    norm_num [body, pivotCell, obsFor, c1obs, List.filter, Obs.acres,
      acresPerUnit, round4]
    decide

/-- Witness for C1 at a single-row observation list. -/
theorem C1_cell_is_mean_w :
    (("WAT" ∈ (["WAT", "FOR"] : List String)) ∧
     ("FOR" ∈ (["WAT", "FOR"] : List String)) ∧
     ("WAT" : String) ≠ "FOR" ∧
     obsFor [⟨"WAT", some "FOR", 404686⟩] "WAT" "FOR" ≠ []) ∧
    ((buildMatrix [⟨"WAT", some "FOR", 404686⟩] ["WAT", "FOR"]).cell "WAT" "FOR"
      = some (round4
          (((obsFor [⟨"WAT", some "FOR", 404686⟩] "WAT" "FOR").map Obs.acres).sum
            / ((obsFor [⟨"WAT", some "FOR", 404686⟩] "WAT" "FOR").length : ℚ))) ∧
     ∀ o : Obs, obsFor [⟨"WAT", some "FOR", 404686⟩] "WAT" "FOR" = [o] →
      (buildMatrix [⟨"WAT", some "FOR", 404686⟩] ["WAT", "FOR"]).cell "WAT" "FOR"
        = some (round4 o.acres)) :=
  ⟨⟨by decide, by decide, by decide, by decide⟩,
   C1_cell_is_mean [⟨"WAT", some "FOR", 404686⟩] ["WAT", "FOR"] "WAT" "FOR"
     (by decide) (by decide) (by decide) (by decide) (by decide) (by decide)
     (by decide)⟩

/-! ## C7 -/

/-- C7 (amended): aggregating the single observation (A, B, c) with A ≠ B
into the 2-class registry [A, B] yields
Decrease[A] = Increase[B] = round4(c / 4046.86) — the conversion division
followed by the pivot's rounding to four decimals —
Decrease[B] = Increase[A] = 0, Net Change[A] = −round4(c / 4046.86) and
Net Change[B] = +round4(c / 4046.86). -/
theorem C7_roundtrip (A B : String) (c : ℚ) (hAB : A ≠ B)
    (hAI : A ≠ "Increase") (hAD : A ≠ "Decrease") (hAN : A ≠ "Net Change")
    (hBI : B ≠ "Increase") (hBD : B ≠ "Decrease") (hBN : B ≠ "Net Change") :
    (buildMatrix [⟨A, some B, c⟩] [A, B]).cell A "Decrease"
        = some (round4 (c / acresPerUnit)) ∧
    (buildMatrix [⟨A, some B, c⟩] [A, B]).cell "Increase" B
        = some (round4 (c / acresPerUnit)) ∧
    (buildMatrix [⟨A, some B, c⟩] [A, B]).cell B "Decrease" = some 0 ∧
    (buildMatrix [⟨A, some B, c⟩] [A, B]).cell "Increase" A = some 0 ∧
    (buildMatrix [⟨A, some B, c⟩] [A, B]).cell "Net Change" A
        = some (-round4 (c / acresPerUnit)) ∧
    (buildMatrix [⟨A, some B, c⟩] [A, B]).cell "Net Change" B
        = some (round4 (c / acresPerUnit)) := by
  have hI : "Increase" ∉ ([A, B] : List String) := by
    simp only [List.mem_cons, List.not_mem_nil, or_false]
    push_neg
    exact ⟨fun h => hAI h.symm, fun h => hBI h.symm⟩
  have hD : "Decrease" ∉ ([A, B] : List String) := by
    simp only [List.mem_cons, List.not_mem_nil, or_false]
    push_neg
    exact ⟨fun h => hAD h.symm, fun h => hBD h.symm⟩
  have hN : "Net Change" ∉ ([A, B] : List String) := by
    simp only [List.mem_cons, List.not_mem_nil, or_false]
    push_neg
    exact ⟨fun h => hAN h.symm, fun h => hBN h.symm⟩
  have hmA : A ∈ ([A, B] : List String) := by simp
  have hmB : B ∈ ([A, B] : List String) := by simp
  have hof : obsFor [⟨A, some B, c⟩] A B = [⟨A, some B, c⟩] := by
    simp [obsFor, List.filter]
  have hbodyAB : body [⟨A, some B, c⟩] A B = round4 (c / acresPerUnit) := by
    simp [body, hAB, pivotCell, hof, Obs.acres]
  have hbodyAA : body [⟨A, some B, c⟩] A A = 0 := by simp [body]
  have hofB : ∀ x, obsFor [⟨A, some B, c⟩] B x = [] := by
    intro x
    simp [obsFor, List.filter_cons, hAB]
  have hbodyB : ∀ x, body [⟨A, some B, c⟩] B x = 0 := by
    intro x
    rcases eq_or_ne B x with h | h
    · simp [body, h]
    · simp [body, h, pivotCell, hofB]
  have hdecA : decrease [⟨A, some B, c⟩] [A, B] A = round4 (c / acresPerUnit) := by
    simp [decrease, hbodyAA, hbodyAB]
  have hdecB : decrease [⟨A, some B, c⟩] [A, B] B = 0 := by
    simp [decrease, hbodyB]
  have hincA : increase [⟨A, some B, c⟩] [A, B] A = 0 := by
    simp [increase, hbodyAA, hbodyB]
  have hincB : increase [⟨A, some B, c⟩] [A, B] B = round4 (c / acresPerUnit) := by
    simp [increase, hbodyAB, hbodyB]
  refine ⟨?_, ?_, ?_, ?_, ?_, ?_⟩
  · rw [cell_decCol _ _ A hmA hI hD hN, hdecA]
  · rw [cell_incRow _ _ B hmB hD, hincB]
  · rw [cell_decCol _ _ B hmB hI hD hN, hdecB]
  · rw [cell_incRow _ _ A hmA hD, hincA]
  · rw [cell_netRow _ _ A hmA hD, hincA, hdecA, zero_sub]
  · rw [cell_netRow _ _ B hmB hD, hincB, hdecB, sub_zero]

/-- Witness for C7 at the concrete observation (WAT, FOR, 40468.6-ish):
count 4046860/1000 would hit a fraction, so the plain count 404686 is used,
whose converted acreage is exactly 100 and survives rounding. -/
theorem C7_roundtrip_w :
    (("WAT" : String) ≠ "FOR") ∧
    ((buildMatrix [⟨"WAT", some "FOR", 404686⟩] ["WAT", "FOR"]).cell "WAT" "Decrease"
        = some (round4 (404686 / acresPerUnit)) ∧
     (buildMatrix [⟨"WAT", some "FOR", 404686⟩] ["WAT", "FOR"]).cell "Increase" "FOR"
        = some (round4 (404686 / acresPerUnit)) ∧
     (buildMatrix [⟨"WAT", some "FOR", 404686⟩] ["WAT", "FOR"]).cell "FOR" "Decrease"
        = some 0 ∧
     (buildMatrix [⟨"WAT", some "FOR", 404686⟩] ["WAT", "FOR"]).cell "Increase" "WAT"
        = some 0 ∧
     (buildMatrix [⟨"WAT", some "FOR", 404686⟩] ["WAT", "FOR"]).cell "Net Change" "WAT"
        = some (-round4 (404686 / acresPerUnit)) ∧
     (buildMatrix [⟨"WAT", some "FOR", 404686⟩] ["WAT", "FOR"]).cell "Net Change" "FOR"
        = some (round4 (404686 / acresPerUnit))) :=
  ⟨by decide,
   C7_roundtrip "WAT" "FOR" 404686 (by decide) (by decide) (by decide)
     (by decide) (by decide) (by decide) (by decide)⟩

/-- C7 counterexample: the single observation (A, B, count 1) yields
Decrease[A] = round4(1/4046.86) = 0.0002 = 1/5000, which is NOT the exact
conversion 1/4046.86 the claim states — the pivot's rounding to four
decimal places intervenes. -/
theorem C7_counterexample :
    (buildMatrix [⟨"A", some "B", 1⟩] ["A", "B"]).cell "A" "Decrease"
      = some (1 / 5000) ∧
    (1 / 5000 : ℚ) ≠ 1 / acresPerUnit := by
  constructor
  · rw [cell_decCol _ _ "A" (by decide) (by decide) (by decide) (by decide)]
    norm_num [decrease, body, pivotCell, obsFor, List.filter, Obs.acres,
      acresPerUnit, round4]
    decide
  · norm_num [acresPerUnit]

/-! ## C6 -/

theorem body_early_zero (obs : List Obs) (c0 l : String)
    (h : ∀ o ∈ obs, o.early ≠ c0) : body obs c0 l = 0 := by
  rcases eq_or_ne c0 l with hh | hh
  · simp [body, hh]
  · have hnil : obsFor obs c0 l = [] := by
      apply List.filter_eq_nil_iff.mpr
      intro o ho
      simp only [decide_eq_true_eq]
      exact fun hc => h o ho hc.1
    simp [body, hh, pivotCell, hnil]

theorem body_late_zero (obs : List Obs) (r c0 : String)
    (h : ∀ o ∈ obs, o.late ≠ some c0) : body obs r c0 = 0 := by
  rcases eq_or_ne r c0 with hh | hh
  · simp [body, hh]
  · have hnil : obsFor obs r c0 = [] := by
      apply List.filter_eq_nil_iff.mpr
      intro o ho
      simp only [decide_eq_true_eq]
      exact fun hc => h o ho hc.2
    simp [body, hh, pivotCell, hnil]

/-- C6 (amended): the built matrix lists each registry class exactly once
as a row and once as a column, in registry order (not alphabetical); its
column labels are exactly `classes ++ [Decrease]`; its row labels however
are `classes ++ [Increase, Decrease, Net Change]` — line 209 also mirrors
the `Decrease` column as a fourth kind of row, and the net-change row is
labelled "Net Change" with a space; a registry class with no observed
transitions still appears, with an all-zero row and column. -/
theorem C6_shape (obs : List Obs) (classes : List String) (hnd : classes.Nodup)
    (hI : "Increase" ∉ classes) (hD : "Decrease" ∉ classes)
    (hN : "Net Change" ∉ classes) :
    (buildMatrix obs classes).rows
      = classes ++ ["Increase", "Decrease", "Net Change"] ∧
    (buildMatrix obs classes).cols = classes ++ ["Decrease"] ∧
    (∀ c ∈ classes, (buildMatrix obs classes).rows.count c = 1 ∧
      (buildMatrix obs classes).cols.count c = 1) ∧
    (∀ c0 ∈ classes, (∀ o ∈ obs, o.early ≠ c0 ∧ o.late ≠ some c0) →
      (∀ l ∈ (buildMatrix obs classes).cols,
        (buildMatrix obs classes).cell c0 l = some 0) ∧
      (∀ r ∈ (buildMatrix obs classes).rows,
        (buildMatrix obs classes).cell r c0 = some 0)) := by
  refine ⟨rfl, rfl, ?_, ?_⟩
  · intro c hc
    have hcI : c ≠ "Increase" := fun h => hI (h ▸ hc)
    have hcD : c ≠ "Decrease" := fun h => hD (h ▸ hc)
    have hcN : c ≠ "Net Change" := fun h => hN (h ▸ hc)
    have h1 : classes.count c = 1 := List.count_eq_one_of_mem hnd hc
    constructor
    · show (classes ++ ["Increase", "Decrease", "Net Change"]).count c = 1
      rw [List.count_append, h1]
      have : (["Increase", "Decrease", "Net Change"] : List String).count c = 0 := by
        apply List.count_eq_zero.mpr
        intro hmem
        rcases List.mem_cons.mp hmem with h | hmem
        · exact hcI h
        rcases List.mem_cons.mp hmem with h | hmem
        · exact hcD h
        rcases List.mem_cons.mp hmem with h | hmem
        · exact hcN h
        · simp at hmem
      omega
    · show (classes ++ ["Decrease"]).count c = 1
      rw [List.count_append, h1]
      have : (["Decrease"] : List String).count c = 0 := by
        apply List.count_eq_zero.mpr
        intro hmem
        rcases List.mem_cons.mp hmem with h | hmem
        · exact hcD h
        · simp at hmem
      omega
  · intro c0 hc0 hobs
    have hbe : ∀ l, body obs c0 l = 0 :=
      fun l => body_early_zero obs c0 l (fun o ho => (hobs o ho).1)
    have hbl : ∀ r, body obs r c0 = 0 :=
      fun r => body_late_zero obs r c0 (fun o ho => (hobs o ho).2)
    have hdec : decrease obs classes c0 = 0 := by
      apply List.sum_eq_zero
      intro x hx
      rcases List.mem_map.mp hx with ⟨l, _, rfl⟩
      exact hbe l
    have hinc : increase obs classes c0 = 0 := by
      apply List.sum_eq_zero
      intro x hx
      rcases List.mem_map.mp hx with ⟨r, _, rfl⟩
      exact hbl r
    constructor
    · intro l hl
      rcases List.mem_append.mp hl with hl | hl
      · rw [cell_class obs classes c0 l hc0 hl hI hD hN, hbe l]
      · have : l = "Decrease" := by simpa using hl
        subst this
        rw [cell_decCol obs classes c0 hc0 hI hD hN, hdec]
    · intro r hr
      rcases List.mem_append.mp hr with hr | hr
      · rw [cell_class obs classes r c0 hr hc0 hI hD hN, hbl r]
      · rcases List.mem_cons.mp hr with h | hr
        · subst h
          rw [cell_incRow obs classes c0 hc0 hD, hinc]
        rcases List.mem_cons.mp hr with h | hr
        · subst h
          rw [cell_decRow obs classes c0 hc0 hD, hdec]
        rcases List.mem_cons.mp hr with h | hr
        · subst h
          rw [cell_netRow obs classes c0 hc0 hD, hinc, hdec, sub_zero]
        · simp at hr

/-- Witness for C6 at a concrete registry in which the class FOR has no
observed transition. -/
theorem C6_shape_w :
    ((["WAT", "FOR"] : List String).Nodup ∧
     "Increase" ∉ (["WAT", "FOR"] : List String) ∧
     "Decrease" ∉ (["WAT", "FOR"] : List String) ∧
     "Net Change" ∉ (["WAT", "FOR"] : List String)) ∧
    ((buildMatrix [⟨"WAT", some "DEV", 7⟩] ["WAT", "FOR"]).rows
      = ["WAT", "FOR"] ++ ["Increase", "Decrease", "Net Change"] ∧
    (buildMatrix [⟨"WAT", some "DEV", 7⟩] ["WAT", "FOR"]).cols
      = ["WAT", "FOR"] ++ ["Decrease"] ∧
    (∀ c ∈ (["WAT", "FOR"] : List String),
      (buildMatrix [⟨"WAT", some "DEV", 7⟩] ["WAT", "FOR"]).rows.count c = 1 ∧
      (buildMatrix [⟨"WAT", some "DEV", 7⟩] ["WAT", "FOR"]).cols.count c = 1) ∧
    (∀ c0 ∈ (["WAT", "FOR"] : List String),
      (∀ o ∈ ([⟨"WAT", some "DEV", 7⟩] : List Obs),
        o.early ≠ c0 ∧ o.late ≠ some c0) →
      (∀ l ∈ (buildMatrix [⟨"WAT", some "DEV", 7⟩] ["WAT", "FOR"]).cols,
        (buildMatrix [⟨"WAT", some "DEV", 7⟩] ["WAT", "FOR"]).cell c0 l = some 0) ∧
      (∀ r ∈ (buildMatrix [⟨"WAT", some "DEV", 7⟩] ["WAT", "FOR"]).rows,
        (buildMatrix [⟨"WAT", some "DEV", 7⟩] ["WAT", "FOR"]).cell r c0 = some 0))) :=
  ⟨⟨by decide, by decide, by decide, by decide⟩,
   C6_shape [⟨"WAT", some "DEV", 7⟩] ["WAT", "FOR"]
     (by decide) (by decide) (by decide) (by decide)⟩

/-- C6 counterexample: the built matrix's row-label list also contains a
`Decrease` row, so it is not `classes ++ [Increase, NetChange]` as the
claim states. -/
theorem C6_counterexample :
    (buildMatrix [⟨"WAT", some "FOR", 0⟩] ["WAT", "FOR"]).rows
      = ["WAT", "FOR", "Increase", "Decrease", "Net Change"] ∧
    "Decrease" ∈ (buildMatrix [⟨"WAT", some "FOR", 0⟩] ["WAT", "FOR"]).rows ∧
    (["WAT", "FOR", "Increase", "Decrease", "Net Change"] : List String)
      ≠ ["WAT", "FOR", "Increase", "Net Change"] := by
  refine ⟨rfl, by decide, by decide⟩

/-! ## C3 -/

theorem obsFor_cons_drop (obs : List Obs) (o : Obs) (e l : String)
    (h : ¬ (o.early = e ∧ o.late = some l)) :
    obsFor (o :: obs) e l = obsFor obs e l := by
  simp [obsFor, List.filter_cons, h]

theorem body_cons_drop (obs : List Obs) (o : Obs) (classes : List String)
    (hdrop : o.early ∉ classes ∨ ∀ l ∈ classes, o.late ≠ some l)
    (e l : String) (he : e ∈ classes) (hl : l ∈ classes) :
    body (o :: obs) e l = body obs e l := by
  have h : ¬ (o.early = e ∧ o.late = some l) := by
    rcases hdrop with h | h
    · exact fun hc => h (hc.1 ▸ he)
    · exact fun hc => h l hl hc.2
  simp [body, pivotCell, obsFor_cons_drop obs o e l h]

theorem decrease_cons_drop (obs : List Obs) (o : Obs) (classes : List String)
    (hdrop : o.early ∉ classes ∨ ∀ l ∈ classes, o.late ≠ some l)
    (e : String) (he : e ∈ classes) :
    decrease (o :: obs) classes e = decrease obs classes e := by
  unfold decrease
  congr 1
  apply List.map_congr_left
  intro l hl
  exact body_cons_drop obs o classes hdrop e l he hl

theorem increase_cons_drop (obs : List Obs) (o : Obs) (classes : List String)
    (hdrop : o.early ∉ classes ∨ ∀ l ∈ classes, o.late ≠ some l)
    (l : String) (hl : l ∈ classes) :
    increase (o :: obs) classes l = increase obs classes l := by
  unfold increase
  congr 1
  apply List.map_congr_left
  intro e he
  exact body_cons_drop obs o classes hdrop e l he hl

theorem totalChange_cons_drop (obs : List Obs) (o : Obs) (classes : List String)
    (hdrop : o.early ∉ classes ∨ ∀ l ∈ classes, o.late ≠ some l) :
    totalChange (o :: obs) classes = totalChange obs classes := by
  unfold totalChange
  congr 1
  apply List.map_congr_left
  intro e he
  exact decrease_cons_drop obs o classes hdrop e he

/-- C3 (amended): matrix construction does not fail on an observation whose
early class is outside the registry, or whose late class is outside the
registry (or missing); the observation is silently dropped by the
reindex/column selection — every table cell of the matrix built with the
observation equals the corresponding cell of the matrix built without it. -/
theorem C3_silent_drop (obs : List Obs) (classes : List String) (o : Obs)
    (hI : "Increase" ∉ classes) (hD : "Decrease" ∉ classes)
    (hN : "Net Change" ∉ classes)
    (hdrop : o.early ∉ classes ∨ ∀ l ∈ classes, o.late ≠ some l) :
    ∀ r ∈ (buildMatrix (o :: obs) classes).rows,
      ∀ c ∈ (buildMatrix (o :: obs) classes).cols,
        (buildMatrix (o :: obs) classes).cell r c
          = (buildMatrix obs classes).cell r c := by
  intro r hr c hc
  rcases List.mem_append.mp hc with hc | hc
  · -- c is a class column
    rcases List.mem_append.mp hr with hr | hr
    · rw [cell_class (o :: obs) classes r c hr hc hI hD hN,
        cell_class obs classes r c hr hc hI hD hN,
        body_cons_drop obs o classes hdrop r c hr hc]
    · rcases List.mem_cons.mp hr with h | hr
      · subst h
        rw [cell_incRow (o :: obs) classes c hc hD, cell_incRow obs classes c hc hD,
          increase_cons_drop obs o classes hdrop c hc]
      rcases List.mem_cons.mp hr with h | hr
      · subst h
        rw [cell_decRow (o :: obs) classes c hc hD, cell_decRow obs classes c hc hD,
          decrease_cons_drop obs o classes hdrop c hc]
      rcases List.mem_cons.mp hr with h | hr
      · subst h
        rw [cell_netRow (o :: obs) classes c hc hD, cell_netRow obs classes c hc hD,
          increase_cons_drop obs o classes hdrop c hc,
          decrease_cons_drop obs o classes hdrop c hc]
      · simp at hr
  · -- c = "Decrease"
    have hcD : c = "Decrease" := by simpa using hc
    subst hcD
    rcases List.mem_append.mp hr with hr | hr
    · rw [cell_decCol (o :: obs) classes r hr hI hD hN,
        cell_decCol obs classes r hr hI hD hN,
        decrease_cons_drop obs o classes hdrop r hr]
    · rcases List.mem_cons.mp hr with h | hr
      · subst h
        rw [cell_totCorner, cell_totCorner, totalChange_cons_drop obs o classes hdrop]
      rcases List.mem_cons.mp hr with h | hr
      · subst h
        simp [buildMatrix]
      rcases List.mem_cons.mp hr with h | hr
      · subst h
        simp [buildMatrix]
      · simp at hr

/-- Witness for C3's amended statement: dropping a (Weird → WAT) row leaves
every cell of the 2-class matrix unchanged. -/
theorem C3_silent_drop_w :
    ("Increase" ∉ (["WAT", "FOR"] : List String) ∧
     "Decrease" ∉ (["WAT", "FOR"] : List String) ∧
     "Net Change" ∉ (["WAT", "FOR"] : List String) ∧
     (("Weird" : String) ∉ (["WAT", "FOR"] : List String) ∨
       ∀ l ∈ (["WAT", "FOR"] : List String),
         (some "WAT" : Option String) ≠ some l)) ∧
    (∀ r ∈ (buildMatrix (⟨"Weird", some "WAT", 404686⟩ ::
        [⟨"WAT", some "FOR", 5⟩]) ["WAT", "FOR"]).rows,
      ∀ c ∈ (buildMatrix (⟨"Weird", some "WAT", 404686⟩ ::
        [⟨"WAT", some "FOR", 5⟩]) ["WAT", "FOR"]).cols,
        (buildMatrix (⟨"Weird", some "WAT", 404686⟩ ::
          [⟨"WAT", some "FOR", 5⟩]) ["WAT", "FOR"]).cell r c
          = (buildMatrix [⟨"WAT", some "FOR", 5⟩] ["WAT", "FOR"]).cell r c) :=
  ⟨⟨by decide, by decide, by decide, Or.inl (by decide)⟩,
   C3_silent_drop [⟨"WAT", some "FOR", 5⟩] ["WAT", "FOR"]
     ⟨"Weird", some "WAT", 404686⟩ (by decide) (by decide) (by decide)
     (Or.inl (by decide))⟩

/-- The out-of-registry observation of the C3 counterexample: 100 acres of
a class "Weird" that is neither an abbreviation key nor a registry class. -/
def c3obs : List Obs := [⟨"Weird", some "WAT", 404686⟩]

/-- The abbreviation table of the C3 counterexample. -/
def c3ab : List (String × String) := [("Water", "WAT"), ("Forest", "FOR")]

/-- The matrix the pipeline builds from `c3obs` under `c3ab`. -/
def c3M : FullMatrix := buildMatrix (c3obs.map (applyAbbrev c3ab)) ["WAT", "FOR"]

/-- C3 counterexample: the observation's early class "Weird" is absent from
the registry, yet construction produces a matrix with no error — there is
no raise on this path — silently dropping the observation's 100 acres:
"Weird" gets no row and the total change is 0, not 100. -/
theorem C3_counterexample :
    (c3obs.map Obs.acres).sum = 100 ∧
    "Weird" ∉ c3M.rows ∧
    c3M.cell "Increase" "Decrease" = some 0 ∧
    c3M.cell "WAT" "FOR" = some 0 ∧
    c3M.cell "FOR" "WAT" = some 0 ∧
    (100 : ℚ) ≠ 0 := by
  have habb : c3M = buildMatrix [⟨"Weird", some "WAT", 404686⟩] ["WAT", "FOR"] := by
    unfold c3M
    congr 1
  refine ⟨?_, by decide, ?_, ?_, ?_, by norm_num⟩
  · norm_num [c3obs, Obs.acres, acresPerUnit]
  · rw [habb, cell_totCorner]
    simp +decide [totalChange, decrease, body, pivotCell, obsFor, List.filter]
  · rw [habb, cell_class _ _ "WAT" "FOR" (by decide) (by decide) (by decide)
      (by decide) (by decide)]
    simp +decide [body, pivotCell, obsFor, List.filter]
  · rw [habb, cell_class _ _ "FOR" "WAT" (by decide) (by decide) (by decide)
      (by decide) (by decide)]
    simp +decide [body, pivotCell, obsFor, List.filter]

/-! ## C4 and C5 -/

theorem fdiv_none (t : Option ℚ) : fdiv none t = none := by
  cases t <;> rfl

theorem difference_ok (versions : List String) (A B : FullMatrix)
    (h2 : versions.length = 2) :
    difference_matrices versions A B
      = .ok ⟨(diffTable A B).rows, (diffTable A B).cols,
          fun r c => fdiv ((diffTable A B).cell r c)
            (A.cell "Increase" "Decrease")⟩ := by
  unfold difference_matrices
  rw [if_neg (by omega : ¬ versions.length ≠ 2)]

/-- C4 (amended): the Differencer performs no shape check — its only raise
is the two-versions count check — and on matrices with mismatched label
sets it still succeeds, aligning cells by label: every cell not carried by
both input tables (in particular a row or column mapped by only one
version) is silently NaN in the emitted table rather than an error. -/
theorem C4_no_shape_check (versions : List String) (A B : FullMatrix)
    (h2 : versions.length = 2) :
    ∃ M : FullMatrix, difference_matrices versions A B = .ok M ∧
      ∀ r c : String, ¬ (r ∈ A.rows ∧ c ∈ A.cols ∧ r ∈ B.rows ∧ c ∈ B.cols) →
        M.cell r c = none := by
  refine ⟨_, difference_ok versions A B h2, ?_⟩
  intro r c h
  show fdiv ((diffTable A B).cell r c) (A.cell "Increase" "Decrease") = none
  have hcell : (diffTable A B).cell r c = none := by
    unfold diffTable
    simp only
    rw [if_neg h]
  rw [hcell, fdiv_none]

/-- The newer-version matrix of the C4 counterexample: it maps three
classes. -/
def c4A : FullMatrix := buildMatrix [⟨"WAT", some "FOR", 0⟩] ["WAT", "FOR", "DEV"]

/-- The older-version matrix of the C4 counterexample: it maps only two
classes, so the label lists of the two matrices disagree. -/
def c4B : FullMatrix := buildMatrix [⟨"WAT", some "FOR", 0⟩] ["WAT", "FOR"]

/-- C4 counterexample: differencing two matrices with different class
orders/lengths raises nothing — the call returns a table, with the
non-shared (DEV, WAT) cell silently NaN, instead of failing with a
ShapeMismatch-class error. -/
theorem C4_counterexample :
    c4A.rows ≠ c4B.rows ∧
    (difference_matrices ["2024ed", "2022ed"] c4A c4B).toOption.map
        (fun M => M.cell "DEV" "WAT") = some none := by
  constructor
  · decide
  · rw [difference_ok ["2024ed", "2022ed"] c4A c4B rfl]
    have hcell : (diffTable c4A c4B).cell "DEV" "WAT" = none := by
      unfold diffTable
      simp only
      rw [if_neg (by decide)]
    simp [Except.toOption, hcell, fdiv_none]

/-- Witness for C4's amended statement at the concrete mismatched pair. -/
theorem C4_no_shape_check_w :
    (["2024ed", "2022ed"] : List String).length = 2 ∧
    (∃ M : FullMatrix, difference_matrices ["2024ed", "2022ed"] c4A c4B = .ok M ∧
      ∀ r c : String,
        ¬ (r ∈ c4A.rows ∧ c ∈ c4A.cols ∧ r ∈ c4B.rows ∧ c ∈ c4B.cols) →
        M.cell r c = none) :=
  ⟨rfl, C4_no_shape_check ["2024ed", "2022ed"] c4A c4B rfl⟩

/-- C5 (amended): past the version-count check the Differencer always
returns a table, with no zero test on the total change: a cell carried by
both matrices equals (A − B) / totalChange(A) when totalChange(A) ≠ 0, and
is the non-finite float result of dividing by zero (modelled `none`) when
totalChange(A) = 0 — silently emitted, never a raised error. -/
theorem C5_zero_total (versions : List String) (A B : FullMatrix)
    (h2 : versions.length = 2) (t a b : ℚ) (r c : String)
    (ht : A.cell "Increase" "Decrease" = some t)
    (hin : r ∈ A.rows ∧ c ∈ A.cols ∧ r ∈ B.rows ∧ c ∈ B.cols)
    (ha : A.cell r c = some a) (hb : B.cell r c = some b) :
    ∃ M : FullMatrix, difference_matrices versions A B = .ok M ∧
      M.cell r c = (if t = 0 then none else some ((a - b) / t)) := by
  refine ⟨_, difference_ok versions A B h2, ?_⟩
  show fdiv ((diffTable A B).cell r c) (A.cell "Increase" "Decrease") = _
  have hcell : (diffTable A B).cell r c = some (a - b) := by
    unfold diffTable
    simp only
    rw [if_pos hin, ha, hb]
    rfl
  rw [hcell, ht]
  rfl

/-- The all-zero matrix of the C5 counterexample: its single observation
has count 0, so its total change is 0. -/
def c5A : FullMatrix := buildMatrix [⟨"WAT", some "FOR", 0⟩] ["WAT", "FOR"]

/-- C5 counterexample: the newer matrix's total change is 0, yet the
Differencer raises nothing: it emits a table whose (WAT, FOR) cell is the
non-finite result of the division by zero (NaN), violating both "fails
with an explicit fatal error" and "never emits NaN or infinity". -/
theorem C5_counterexample :
    c5A.cell "Increase" "Decrease" = some 0 ∧
    (difference_matrices ["2024ed", "2022ed"] c5A c5A).toOption.map
        (fun M => M.cell "WAT" "FOR") = some none := by
  have hcellWF : c5A.cell "WAT" "FOR" = some 0 := by
    unfold c5A
    rw [cell_class _ _ "WAT" "FOR" (by decide) (by decide) (by decide)
      (by decide) (by decide)]
    simp +decide [body, pivotCell, obsFor, List.filter, Obs.acres]
    norm_num [round4]
  have htot : c5A.cell "Increase" "Decrease" = some 0 := by
    unfold c5A
    rw [cell_totCorner]
    simp +decide [totalChange, decrease, body, pivotCell, obsFor, List.filter,
      Obs.acres]
    norm_num [round4]
  refine ⟨htot, ?_⟩
  rw [difference_ok ["2024ed", "2022ed"] c5A c5A rfl]
  have hd : (diffTable c5A c5A).cell "WAT" "FOR" = some 0 := by
    unfold diffTable
    simp only
    rw [if_pos (by decide), hcellWF]
    norm_num [fsub]
  simp [Except.toOption, hd, htot, fdiv]

/-- A small literal table for the C5 witness: total-change cell 2, every
other cell 6. -/
def c5W : FullMatrix :=
  ⟨["X", "Increase"], ["X", "Decrease"],
   fun r c => if r = "Increase" ∧ c = "Decrease" then some 2 else some 6⟩

/-- Witness for C5's amended statement at the literal table `c5W`. -/
theorem C5_zero_total_w :
    ((["2024ed", "2022ed"] : List String).length = 2 ∧
     c5W.cell "Increase" "Decrease" = some 2 ∧
     ("X" ∈ c5W.rows ∧ "X" ∈ c5W.cols ∧ "X" ∈ c5W.rows ∧ "X" ∈ c5W.cols) ∧
     c5W.cell "X" "X" = some 6) ∧
    (∃ M : FullMatrix, difference_matrices ["2024ed", "2022ed"] c5W c5W = .ok M ∧
      M.cell "X" "X" = (if (2 : ℚ) = 0 then none else some ((6 - 6) / 2))) :=
  ⟨⟨rfl, rfl, ⟨by decide, by decide, by decide, by decide⟩, rfl⟩,
   C5_zero_total ["2024ed", "2022ed"] c5W c5W rfl 2 6 6 "X" "X" rfl
     ⟨by decide, by decide, by decide, by decide⟩ rfl rfl⟩
